import Mathlib

/-!
Verification development for the gpsd-assistnow repository.

The Python sources (`assistnow.py`, `gpsd-assistnow.py`) are embedded
shallowly: pure computations become Lean functions on `Nat`, `Int`, `ℚ`,
`List Nat` (byte sequences) and `String`; Python `None`-able values become
`Option`; exceptions become explicit error values.  Python `float`
arithmetic is modelled by exact rational arithmetic (at every concrete
input appearing below the two agree).

The UBX packet codec (`gps.ubx.ubx.make_pkt` / `decode_msg`) comes from the
external gpsd library, whose source is not part of this repository; it is
modelled from the specification (wire form, checksum, incremental decode
with resynchronisation).
-/

namespace AssistNow

/-- Little-endian 4-byte encoding of a natural number (low byte first),
as produced by `struct.pack_into` for one 32-bit field. -/
def le4 (n : Nat) : List Nat :=
  [n % 256, n / 256 % 256, n / 65536 % 256, n / 16777216 % 256]

/-- Modelled from the spec: the running 8-bit Fletcher-style checksum used
by the UBX framing (`ck_a += byte; ck_b += ck_a`, both modulo 256),
computed over class, id, length bytes and payload. -/
def fletcher (body : List Nat) : Nat × Nat :=
  body.foldl (fun ab b => ((ab.1 + b) % 256, (ab.2 + ab.1 + b) % 256)) (0, 0)

/-- Modelled from the spec: `gps.ubx.ubx.make_pkt` (external gpsd library).
Wire form `0xB5 0x62 class id length_le16 payload ck_a ck_b`, checksum over
class, id, length and payload. -/
def make_pkt (cls id : Nat) (payload : List Nat) : List Nat :=
  let body := cls :: id :: (payload.length % 256) :: (payload.length / 256 % 256) :: payload
  let ck := fletcher body
  0xb5 :: 0x62 :: (body ++ [ck.1, ck.2])

/-- Modelled from the spec: `gps.ubx.ubx.decode_msg` (external gpsd
library), §4.1 of the spec.  Returns the number of bytes consumed and
whether a checksum-valid packet was decoded.  Leading bytes that are not
the start of a sync marker are skipped one at a time (`consumed = 1`);
an incomplete packet prefix consumes nothing (`consumed = 0`); a complete
frame consumes `8 + payload_len` bytes whether or not its checksum
matches (on mismatch the packet is dropped, the bytes are consumed). -/
def decode_msg : List Nat → Nat × Bool
  | [] => (0, false)
  | [b] => if b = 0xb5 then (0, false) else (1, false)
  | b1 :: b2 :: tail2 =>
    if b1 ≠ 0xb5 then (1, false)
    else if b2 ≠ 0x62 then (1, false)
    else
      match tail2 with
      | cls :: id :: l1 :: l2 :: rest =>
        let len := l1 + 256 * l2
        if rest.length < len + 2 then (0, false)
        else
          let body := cls :: id :: l1 :: l2 :: rest.take len
          let ck := fletcher body
          (8 + len, (rest.getD len 0 == ck.1) && (rest.getD (len + 1) 0 == ck.2))
      | _ => (0, false)

/-- The wrapper `UBlox.decode_msg` of `assistnow.py` (lines 65-68): it
returns the consumed count, the consumed bytes `data[:consumed]`, and the
remainder `data[consumed:]`.  The validity verdict of the decoder is
discarded. -/
def decodeStep (data : List Nat) : Nat × List Nat × List Nat :=
  let c := (decode_msg data).1
  (c, data.take c, data.drop c)

/-- Recomputes the Fletcher checksum of a framed packet and compares it
with the packet's two trailing checksum bytes. -/
def checksumOk (p : List Nat) : Bool :=
  let body := (p.drop 2).take (p.length - 4)
  let ck := fletcher body
  (p.getD (p.length - 2) 0 == ck.1) && (p.getD (p.length - 1) 0 == ck.2)

/-- A byte run is a complete UBX frame: it starts with the sync marker and
its total length is `8 +` the payload length declared in bytes 4-5. -/
def isFrame (p : List Nat) : Prop :=
  p.take 2 = [0xb5, 0x62] ∧ p.length = 8 + (p.getD 4 0 + 256 * p.getD 5 0)

/-- Python `int()` truncation toward zero of an exact rational. -/
def pyInt (q : ℚ) : ℤ :=
  q.num.tdiv q.den

/-- The 20-byte payload `m_data` built by `UBlox.ubx_mga_ini_pos_llh`
(`assistnow.py` lines 102-111): flag bytes `0x01 0x00`, two reserved zero
bytes, then `lat lon alt` as little-endian signed 32-bit and `acc` as
little-endian unsigned 32-bit, packed by `struct.pack_into("<3iI", ...)`.
`struct.pack_into` range-checks its arguments: `i` demands
`-2^31 ≤ x < 2^31` and `I` demands `0 ≤ x < 2^32`, raising `struct.error`
otherwise — modelled as `none`. -/
def mgaPayload (lat_deg lon_deg alt_m pacc_km : ℚ) : Option (List Nat) :=
  let lat := pyInt (lat_deg * 10 ^ 7)
  let lon := pyInt (lon_deg * 10 ^ 7)
  let alt := pyInt (alt_m * 10 ^ 2)
  let acc := pyInt (pacc_km * 10 ^ 6)
  if -(2 ^ 31) ≤ lat ∧ lat < 2 ^ 31 ∧ -(2 ^ 31) ≤ lon ∧ lon < 2 ^ 31 ∧
      -(2 ^ 31) ≤ alt ∧ alt < 2 ^ 31 ∧ 0 ≤ acc ∧ acc < 2 ^ 32 then
    some ([0x01, 0x00, 0, 0] ++ le4 ((lat % 2 ^ 32).toNat) ++ le4 ((lon % 2 ^ 32).toNat) ++
      le4 ((alt % 2 ^ 32).toNat) ++ le4 acc.toNat)
  else none

/-- Embeds `UBlox.ubx_mga_ini_pos_llh` (`assistnow.py` lines 102-112): builds the
UBX-MGA-INI-POS_LLH packet (class `0x13`, id `0x40`) from the 20-byte
payload; `none` when `struct.pack_into` raises. -/
def ubx_mga_ini_pos_llh (lat_deg lon_deg alt_m pacc_km : ℚ) :
    Option (List Nat) :=
  (mgaPayload lat_deg lon_deg alt_m pacc_km).map (make_pkt 0x13 0x40)

/-- Read 4 bytes of a byte list at offset `i` as a little-endian unsigned
32-bit integer. -/
def leU32 (bs : List Nat) (i : Nat) : Nat :=
  bs.getD i 0 + 256 * bs.getD (i + 1) 0 + 65536 * bs.getD (i + 2) 0 +
    16777216 * bs.getD (i + 3) 0

/-- Read 4 bytes of a byte list at offset `i` as a little-endian signed
32-bit integer. -/
def leI32 (bs : List Nat) (i : Nat) : ℤ :=
  let u := leU32 bs i
  if u < 2 ^ 31 then (u : ℤ) else (u : ℤ) - 2 ^ 32

/-- A Python value as it occurs in the parameter dictionaries and the JSON
configuration of `assistnow.py`: `None`, a string, or a number (Python
ints and floats compare equal when they denote the same number, so one
rational-valued constructor covers both). -/
inductive PVal where
  | pynone : PVal
  | str : String → PVal
  | num : ℚ → PVal
deriving DecidableEq

/-- A Python exception raised by the embedded code.  Message contents that
matter to the claims are carried structurally. -/
inductive PyErr where
  | valueErrorUnknownValue : String → List String → PyErr
  | valueErrorNotANumber : String → PyErr
  | valueErrorNotInRange : String → ℚ → ℚ → PyErr
  | nameError : String → PyErr
  | structError : PyErr
  | typeError : String → PyErr
  | exception : String → PyErr
deriving DecidableEq

instance {ε α : Type} [DecidableEq ε] [DecidableEq α] : DecidableEq (Except ε α) := fun a b =>
  match a, b with
  | .error e, .error f =>
    if h : e = f then .isTrue (by rw [h]) else .isFalse (fun hh => h (Except.error.inj hh))
  | .error _, .ok _ => .isFalse (fun hh => Except.noConfusion hh)
  | .ok _, .error _ => .isFalse (fun hh => Except.noConfusion hh)
  | .ok x, .ok y =>
    if h : x = y then .isTrue (by rw [h]) else .isFalse (fun hh => h (Except.ok.inj hh))

/-- The JSON-backed configuration dictionary `self.config`: an ordered
association list of keys to values (a key may be present with value
`None`, which `in` distinguishes from an absent key). -/
abbrev Config : Type := List (String × PVal)

/-- Embeds `self.config.get(k, None)`. -/
def cfgGet : Config → String → PVal
  | [], _ => .pynone
  | (k0, v0) :: rest, k => if k0 = k then v0 else cfgGet rest k

/-- Embeds `k in self.config`. -/
def cfgHas : Config → String → Bool
  | [], _ => false
  | (k0, _) :: rest, k => if k0 = k then true else cfgHas rest k

/-- Embeds `self.config[k] = v`. -/
def cfgSet : Config → String → PVal → Config
  | [], k, v => [(k, v)]
  | (k0, v0) :: rest, k, v =>
    if k0 = k then (k, v) :: rest else (k0, v0) :: cfgSet rest k v

/-- Parse a plain decimal literal (optional sign, digits, optional
fractional part), the fragment of Python `float()` exercised by the
command line surface; `none` when `float()` raises `ValueError`. -/
def parseFloat (s : String) : Option ℚ :=
  let cs := s.toList
  let signed : ℚ × List Char :=
    match cs with
    | '-' :: t => (-1, t)
    | '+' :: t => (1, t)
    | _ => (1, cs)
  let sign := signed.1
  let csr := signed.2
  let isDig : Char → Bool := fun c => decide ('0' ≤ c ∧ c ≤ '9')
  let digVal : List Char → ℕ := fun l =>
    l.foldl (fun a c => 10 * a + (c.toNat - '0'.toNat)) 0
  let ip := csr.takeWhile isDig
  let rest := csr.dropWhile isDig
  match rest with
  | [] => if ip.isEmpty then none else some (sign * digVal ip)
  | '.' :: fr =>
    let fp := fr.takeWhile isDig
    let rest2 := fr.dropWhile isDig
    if ¬ rest2.isEmpty then none
    else if ip.isEmpty ∧ fp.isEmpty then none
    else some (sign * ((digVal ip : ℚ) + (digVal fp : ℚ) / 10 ^ fp.length))
  | _ => none

/-- Python `float(value)` on the value shapes in scope: numbers pass
through, strings are parsed (`none` = `ValueError`). -/
def pyFloat : PVal → Option ℚ
  | .pynone => none
  | .num q => some q
  | .str s => parseFloat s

/-- Embeds `Helpers.validate_number` (`assistnow.py` lines 48-56; the nested
`validate_number` of `gpsd-assistnow.py` lines 26-34 is identical).
`None` passes through.  On an unparseable value or an out-of-range value
the code attempts to raise `ValueError` with an f-string that interpolates
`v` — a name that is not bound in the function's scope — so evaluating the
message raises `NameError: name 'v' is not defined` instead (when the
script's `__main__` block has left a global `v` behind, an unrelated
command-line fragment is interpolated; either way the offending value and
the range never reach the message). -/
def validate_number (value : PVal) (min_value max_value : ℚ) : Except PyErr (Option ℚ) :=
  match value with
  | .pynone => .ok none
  | v =>
    match pyFloat v with
    | none => .error (.nameError "v")
    | some q =>
      if min_value ≤ q ∧ q ≤ max_value then .ok (some q)
      else .error (.nameError "v")

/-- Strip leading and trailing spaces, Python `str.strip()` for the space
character (sufficient for the comma-separated lists in scope). -/
def pyStrip (s : String) : String :=
  ((s.toList.dropWhile (· = ' ')).reverse.dropWhile (· = ' ')).reverse.asString

/-- Split a character list at commas (semantics of Python
`str.split(",")`: `n` commas yield `n + 1` fields, empty fields kept). -/
def splitComma : List Char → List (List Char)
  | [] => [[]]
  | c :: rest =>
    match splitComma rest with
    | [] => [[c]]
    | g :: gs => if c = ',' then [] :: g :: gs else (c :: g) :: gs

/-- Python `s.split(",")`. -/
def pySplitComma (s : String) : List String :=
  (splitComma s.toList).map List.asString

/-- Embeds `Helpers.validate_list` (`assistnow.py` lines 39-46): a falsy input
(`None` or the empty string) yields `None`; otherwise the string is split
on commas, each item stripped, and each item must be one of the available
choices — the first unknown item raises `ValueError` naming the offending
value and the valid choices; on success the items are re-joined with
commas. -/
def validate_list (values : Option String) (choices : List String) :
    Except PyErr (Option String) :=
  match values with
  | none => .ok none
  | some s =>
    if s = "" then .ok none
    else
      let vs := (pySplitComma s).map pyStrip
      match vs.find? (fun v => ¬ choices.contains v) with
      | some v => .error (.valueErrorUnknownValue v choices)
      | none => .ok (some (String.intercalate "," vs))

/-- The cache-duration handling of `AssistNow.__init__` (`assistnow.py`
line 118): `Helpers.validate_number(cache_duration, 0, 24)`. -/
def initCacheDuration (cache_duration : PVal) : Except PyErr (Option ℚ) :=
  validate_number cache_duration 0 24

/-- The constructor's default argument `cache_duration=3`
(`assistnow.py` line 116). -/
def defaultCacheDuration : PVal := .num 3

/-- Embeds `AssistNow.load_cache` (`assistnow.py` lines 136-144): the cache file
content is used only while its age is within `cache_duration` hours. -/
def load_cache (ageSeconds cacheDurationHours : ℚ) (fileContent : List Nat) :
    Option (List Nat) :=
  if ageSeconds ≤ cacheDurationHours * 3600 then some fileContent else none

/-- The validated update parameters (`assistnow.py` lines 176-183):
`data` and `gnss` as comma-joined strings, the four numeric parameters as
exact rationals, each possibly `None`. -/
structure Params where
  data : Option String
  gnss : Option String
  lat : Option ℚ
  lon : Option ℚ
  alt : Option ℚ
  pacc : Option ℚ
deriving DecidableEq

def ofStr : Option String → PVal
  | none => .pynone
  | some s => .str s

def ofNum : Option ℚ → PVal
  | none => .pynone
  | some q => .num q

/-- The `params` dictionary in insertion order, including the derived
`filteronpos = 1` entry added when both `lat` and `lon` are present
(`assistnow.py` lines 176-185). -/
def paramsList (p : Params) : List (String × PVal) :=
  [("data", ofStr p.data), ("gnss", ofStr p.gnss), ("lat", ofNum p.lat),
   ("lon", ofNum p.lon), ("alt", ofNum p.alt), ("pacc", ofNum p.pacc)] ++
  (if p.lat.isSome ∧ p.lon.isSome then [("filteronpos", PVal.num 1)] else [])

/-- The parameter-diff loop of `AssistNow.update` (`assistnow.py` lines
187-191): for each `(k, v)` in order, if `self.config.get(k, None) != v`
then `self.config[k] = v` and `changed = True`.  Returns the updated
configuration and the `changed` flag. -/
def updCfg (cfg : Config) : List (String × PVal) → Config × Bool
  | [] => (cfg, false)
  | (k, v) :: rest =>
    if cfgGet cfg k = v then updCfg cfg rest
    else ((updCfg (cfgSet cfg k v) rest).1, true)

/-- Python truthiness of `self.cache` (`None` or empty bytes are falsy),
as tested by `if not self.cache:` (`assistnow.py` line 197). -/
def pyFalsyCache : Option (List Nat) → Bool
  | none => true
  | some l => l.isEmpty

/-- Outcome of one `AssistNow.update` call: the exception raised (if any,
with the effects already performed before the raise), the resulting
configuration, whether the cache entry was discarded, how many times the
fetch collaborator was invoked, the resulting cache entry, and the bytes
handed to `send_data` (`none` when the raise prevented the send). -/
structure UpdRes where
  err : Option PyErr
  newConfig : Config
  invalidated : Bool
  fetchCount : Nat
  newCache : Option (List Nat)
  sent : Option (List Nat)
deriving DecidableEq

/-- Embeds `AssistNow.update` (`assistnow.py` lines 169-216) for an
already-validated parameter set `p`: registration guard, parameter diff
with cache invalidation, fetch on a falsy cache (the external fetch
collaborator's response body is the argument `fetched`), position-aid
prepending when both `lat` and `lon` are present, cache store, and send.
The encoder call at lines 206-208 passes keyword arguments named `alt`
and `pacc`, but the method's parameters (line 102) are named `alt_m` and
`pacc_km`: whenever a validated `alt` or `pacc` is present, Python raises
`TypeError` (unexpected keyword argument) at call binding — after the
fetch, before any packet is built, so no cache entry is written and
nothing is sent.  Only when both are absent does the call succeed, with
the encoder's own defaults `alt_m=0`, `pacc_km=300`. -/
def update (cfg : Config) (cache : Option (List Nat)) (p : Params) (fetched : List Nat) :
    UpdRes :=
  if ¬ cfgHas cfg "chipcode" then
    ⟨some (.exception "Device not registered."), cfg, false, 0, cache, none⟩
  else
    let r := updCfg cfg (paramsList p)
    let cfg1 := r.1
    let changed := r.2
    let cache1 := if changed then none else cache
    if pyFalsyCache cache1 then
      match p.lat, p.lon with
      | some la, some lo =>
        match p.alt, p.pacc with
        | none, none =>
          match ubx_mga_ini_pos_llh la lo 0 300 with
          | some pkt =>
            let d := pkt ++ fetched
            ⟨none, cfg1, changed, 1, some d, some d⟩
          | none => ⟨some .structError, cfg1, changed, 1, cache1, none⟩
        | some _, _ => ⟨some (.typeError "alt"), cfg1, changed, 1, cache1, none⟩
        | none, some _ => ⟨some (.typeError "pacc"), cfg1, changed, 1, cache1, none⟩
      | _, _ => ⟨none, cfg1, changed, 1, some fetched, some fetched⟩
    else ⟨none, cfg1, changed, 0, cache1, some (cache1.getD [])⟩

/-- Outcome of one `AssistNow.register` call: the exception raised (if
any), the number of transport queries issued (`fetch_answer` calls), the
number of cloud-service requests posted, and the resulting configuration
and cache. -/
structure RegRes where
  err : Option PyErr
  transportQueries : Nat
  cloudPosts : Nat
  newConfig : Config
  newCache : Option (List Nat)
deriving DecidableEq

/-- Embeds `AssistNow.register` (`assistnow.py` lines 153-167).  The transport
collaborator's answers to the SEC-UNIQID and MON-VER queries are the
arguments `secUniqid`/`monVer` (empty bytes = no answer, which hex-encodes
to a falsy empty string); the cloud collaborator's response is
`cloudOk`/`cloudConfig`. -/
def register (cfg : Config) (cache : Option (List Nat))
    (secUniqid monVer : List Nat) (cloudOk : Bool) (cloudConfig : Config) : RegRes :=
  if cfgHas cfg "chipcode" then
    ⟨some (.exception "Device already registered."), 0, 0, cfg, cache⟩
  else if secUniqid.isEmpty ∨ monVer.isEmpty then
    ⟨some (.exception "Device did not answer"), 2, 0, cfg, cache⟩
  else if ¬ cloudOk then
    ⟨some (.exception "HTTP error"), 2, 1, cfg, cache⟩
  else
    ⟨none, 2, 1, cloudConfig, cache⟩

/-- Embeds `UBlox.wait_for` (`assistnow.py` lines 70-80), with the wall-clock
timeout modelled as a fuel bound on loop iterations and the transport's
arrivals as a schedule of byte chunks (an empty chunk stands for a poll
that found nothing waiting).  Each iteration appends the next arrived
chunk, runs the decode wrapper, and returns `data[:consumed]` as soon as
its first four bytes are the sync marker followed by the requested class
and id; on timeout it returns empty bytes. -/
def waitFor (m_cls m_id : Nat) : Nat → List (List Nat) → List Nat → List Nat
  | 0, _, _ => []
  | fuel + 1, chunks, data =>
    let recv : List Nat × List (List Nat) :=
      match chunks with
      | [] => (data, [])
      | c :: cs => (data ++ c, cs)
    let s := decodeStep recv.1
    if s.2.1.take 4 = [0xb5, 0x62, m_cls, m_id] then s.2.1
    else waitFor m_cls m_id fuel recv.2 s.2.2

/-- Embeds `UBlox.send_data` (`assistnow.py` lines 89-94; `send2gps` of
`gpsd-assistnow.py` lines 72-83 runs the same loop): repeatedly decode
one packet from the front of the buffer and forward the consumed bytes,
stopping when the buffer is empty or the decoder consumes nothing.
Written with explicit fuel; `none` means the fuel ran out before the loop
exited, so termination is the statement that sufficient fuel always
exists. -/
def sendLoop : Nat → List Nat → Option (List (List Nat))
  | 0, _ => none
  | fuel + 1, data =>
    if data.isEmpty then some []
    else
      let c := (decode_msg data).1
      if c = 0 then some []
      else
        match sendLoop fuel (data.drop c) with
        | none => none
        | some ps => some (data.take c :: ps)

/-- Runs `UBlox.send_data` with the fuel that the termination theorem shows is
always sufficient. -/
def send_data (data : List Nat) : Option (List (List Nat)) :=
  sendLoop (data.length + 1) data

/-! ### Helper lemmas -/

lemma updCfg_all_match (cfg : Config) (l : List (String × PVal))
    (h : ∀ kv ∈ l, cfgGet cfg kv.1 = kv.2) : updCfg cfg l = (cfg, false) := by
  induction l with
  | nil => rfl
  | cons kv rest ih =>
    obtain ⟨k, v⟩ := kv
    have hk : cfgGet cfg k = v := h (k, v) (by simp)
    simp only [updCfg, hk, if_pos rfl, if_true]
    exact ih (fun kv hm => h kv (by simp [hm]))

lemma updCfg_snd_false (cfg : Config) (l : List (String × PVal))
    (h : (updCfg cfg l).2 = false) : ∀ kv ∈ l, cfgGet cfg kv.1 = kv.2 := by
  induction l with
  | nil => simp
  | cons kv rest ih =>
    obtain ⟨k, v⟩ := kv
    by_cases hk : cfgGet cfg k = v
    · have h' : (updCfg cfg rest).2 = false := by
        simpa [updCfg, hk] using h
      intro kv hm
      rcases List.mem_cons.mp hm with heq | hm'
      · rw [heq]; exact hk
      · exact ih h' kv hm'
    · exfalso
      simp [updCfg, hk] at h

lemma mgaPayload_length (a b c d : ℚ) (pl : List Nat)
    (h : mgaPayload a b c d = some pl) : pl.length = 20 := by
  simp only [mgaPayload] at h
  split at h
  · cases h
    simp [le4]
  · cases h

lemma make_pkt_length (cls id : Nat) (pl : List Nat) :
    (make_pkt cls id pl).length = pl.length + 8 := by
  simp [make_pkt]

lemma mga_pkt_length (a b c d : ℚ) (pkt : List Nat)
    (h : ubx_mga_ini_pos_llh a b c d = some pkt) : pkt.length = 28 := by
  unfold ubx_mga_ini_pos_llh at h
  cases hm : mgaPayload a b c d with
  | none => rw [hm] at h; cases h
  | some pl =>
    rw [hm] at h
    cases h
    rw [make_pkt_length, mgaPayload_length a b c d pl hm]

lemma pyInt_natAbs_le (q : ℚ) (B : ℕ) (h : |q| ≤ (B : ℚ)) : (pyInt q).natAbs ≤ B := by
  have hden : 0 < q.den := q.pos
  have hq : (q.num : ℚ) = q * (q.den : ℚ) :=
    (div_eq_iff (show ((q.den : ℚ)) ≠ 0 by positivity)).mp (Rat.num_div_den q)
  have hnum : |(q.num : ℚ)| ≤ (B : ℚ) * (q.den : ℚ) := by
    rw [hq, abs_mul, abs_of_nonneg (show (0 : ℚ) ≤ (q.den : ℚ) by positivity)]
    exact mul_le_mul_of_nonneg_right h (by positivity)
  have hZ : q.num.natAbs ≤ B * q.den := by
    have h1 : |q.num| ≤ (B : ℤ) * (q.den : ℤ) := by exact_mod_cast hnum
    rw [Int.abs_eq_natAbs] at h1
    exact_mod_cast h1
  have h2 : (pyInt q).natAbs = q.num.natAbs / q.den := by
    unfold pyInt
    rw [Int.natAbs_tdiv]
    rfl
  rw [h2]
  calc q.num.natAbs / q.den ≤ B * q.den / q.den := Nat.div_le_div_right hZ
    _ = B := Nat.mul_div_cancel B hden

lemma pyInt_abs_bounds (q : ℚ) (B : ℕ) (h : |q| ≤ (B : ℚ)) :
    -(B : ℤ) ≤ pyInt q ∧ pyInt q ≤ B := by
  have h1 := pyInt_natAbs_le q B h
  have h2 : |pyInt q| ≤ (B : ℤ) := by
    rw [Int.abs_eq_natAbs]
    exact_mod_cast h1
  exact abs_le.mp h2

lemma pyInt_nonneg (q : ℚ) (h : 0 ≤ q) : 0 ≤ pyInt q :=
  Int.tdiv_nonneg (Rat.num_nonneg.mpr h) (Int.ofNat_nonneg q.den)

lemma pyInt_intCast (n : ℤ) : pyInt ((n : ℚ)) = n := by
  unfold pyInt
  rw [Rat.num_intCast, Rat.den_intCast]
  exact Int.tdiv_one n

lemma pyInt_eval (q : ℚ) (n : ℤ) (h : q = (n : ℚ)) : pyInt q = n := by
  rw [h, pyInt_intCast]

/-- The position-aid encoder succeeds exactly when every fixed-point value
fits its packed field; in particular it succeeds whenever `lat`, `lon`,
`alt` are within their validated ranges and `pacc · 10^6` fits an
unsigned 32-bit integer. -/
lemma mga_isSome (lat lon alt pacc : ℚ) (h1 : |lat| ≤ 90) (h2 : |lon| ≤ 180)
    (h3 : |alt| ≤ 50000) (h4 : 0 ≤ pacc) (h5 : pacc * 10 ^ 6 ≤ 4294967295) :
    (ubx_mga_ini_pos_llh lat lon alt pacc).isSome = true := by
  obtain ⟨la1, la2⟩ := pyInt_abs_bounds (lat * 10 ^ 7) 900000000 (by
    rw [abs_mul, abs_of_nonneg (show (0 : ℚ) ≤ 10 ^ 7 by positivity)]
    calc |lat| * 10 ^ 7 ≤ 90 * 10 ^ 7 :=
          mul_le_mul_of_nonneg_right h1 (by positivity)
      _ = ((900000000 : ℕ) : ℚ) := by norm_num)
  obtain ⟨lo1, lo2⟩ := pyInt_abs_bounds (lon * 10 ^ 7) 1800000000 (by
    rw [abs_mul, abs_of_nonneg (show (0 : ℚ) ≤ 10 ^ 7 by positivity)]
    calc |lon| * 10 ^ 7 ≤ 180 * 10 ^ 7 :=
          mul_le_mul_of_nonneg_right h2 (by positivity)
      _ = ((1800000000 : ℕ) : ℚ) := by norm_num)
  obtain ⟨al1, al2⟩ := pyInt_abs_bounds (alt * 10 ^ 2) 5000000 (by
    rw [abs_mul, abs_of_nonneg (show (0 : ℚ) ≤ 10 ^ 2 by positivity)]
    calc |alt| * 10 ^ 2 ≤ 50000 * 10 ^ 2 :=
          mul_le_mul_of_nonneg_right h3 (by positivity)
      _ = ((5000000 : ℕ) : ℚ) := by norm_num)
  have ac1 : 0 ≤ pyInt (pacc * 10 ^ 6) :=
    pyInt_nonneg _ (mul_nonneg h4 (by positivity))
  obtain ⟨-, ac2⟩ := pyInt_abs_bounds (pacc * 10 ^ 6) 4294967295 (by
    rw [abs_of_nonneg (mul_nonneg h4 (show (0 : ℚ) ≤ 10 ^ 6 by positivity))]
    calc pacc * 10 ^ 6 ≤ 4294967295 := h5
      _ = ((4294967295 : ℕ) : ℚ) := by norm_num)
  simp only [ubx_mga_ini_pos_llh, mgaPayload]
  rw [if_pos]
  · simp
  · refine ⟨?_, ?_, ?_, ?_, ?_, ?_, ac1, ?_⟩
    · exact le_trans (by norm_num) la1
    · exact lt_of_le_of_lt la2 (by norm_num)
    · exact le_trans (by norm_num) lo1
    · exact lt_of_le_of_lt lo2 (by norm_num)
    · exact le_trans (by norm_num) al1
    · exact lt_of_le_of_lt al2 (by norm_num)
    · exact lt_of_le_of_lt ac2 (by norm_num)

/-- Concrete evaluation of the position-aid packet for `lat=1, lon=2` with
the encoder defaults `alt_m=0, pacc_km=300`. -/
lemma mga_1_2_concrete :
    ubx_mga_ini_pos_llh 1 2 0 300 =
      some [181, 98, 19, 64, 20, 0, 1, 0, 0, 0, 128, 150, 152, 0, 0, 45, 49, 1,
        0, 0, 0, 0, 0, 163, 225, 17, 10, 12] := by
  have hm : mgaPayload 1 2 0 300 =
      some [1, 0, 0, 0, 128, 150, 152, 0, 0, 45, 49, 1, 0, 0, 0, 0, 0, 163, 225, 17] := by
    simp only [mgaPayload]
    rw [pyInt_eval ((1 : ℚ) * 10 ^ 7) 10000000 (by norm_num),
      pyInt_eval ((2 : ℚ) * 10 ^ 7) 20000000 (by norm_num),
      pyInt_eval ((0 : ℚ) * 10 ^ 2) 0 (by norm_num),
      pyInt_eval ((300 : ℚ) * 10 ^ 6) 300000000 (by norm_num)]
    rw [if_pos (by decide)]
    decide
  unfold ubx_mga_ini_pos_llh
  rw [hm]
  decide

lemma sendLoop_isSome (fuel : Nat) :
    ∀ data : List Nat, data.length < fuel → (sendLoop fuel data).isSome = true := by
  induction fuel with
  | zero => intro data h; omega
  | succ n ih =>
    intro data h
    unfold sendLoop
    by_cases he : data.isEmpty
    · simp [he]
    · simp only [he, Bool.false_eq_true, if_false]
      by_cases hc : (decode_msg data).1 = 0
      · simp [hc]
      · have hlt : (data.drop (decode_msg data).1).length < n := by
          rw [List.length_drop]
          have hd : data.length ≠ 0 := by
            intro h0
            exact he (List.isEmpty_iff.mpr (List.length_eq_zero.mp h0))
          omega
        have := ih (data.drop (decode_msg data).1) hlt
        simp only [hc, if_false]
        cases hrec : sendLoop n (data.drop (decode_msg data).1) with
        | none => rw [hrec] at this; cases this
        | some ps => simp

/-- The key fact behind the synchronizer theorem: whenever the consumed
bytes returned by the decode wrapper start with the sync marker followed
by two more bytes, they form one complete frame (the decoder consumed
noise only one byte at a time, so a four-byte match forces the
complete-frame branch). -/
lemma decodeStep_matching_frame (data : List Nat) (a b : Nat)
    (h : ((decodeStep data).2.1).take 4 = [0xb5, 0x62, a, b]) :
    isFrame ((decodeStep data).2.1) := by
  simp only [decodeStep] at h ⊢
  match data with
  | [] => simp [decode_msg] at h
  | [x] =>
    by_cases hx : x = 0xb5 <;> simp [decode_msg, hx] at h
  | x1 :: x2 :: t =>
    by_cases h1 : x1 = 0xb5
    · by_cases h2 : x2 = 0x62
      · subst h1; subst h2
        match t with
        | [] => simp [decode_msg] at h
        | [c] => simp [decode_msg] at h
        | [c, i] => simp [decode_msg] at h
        | [c, i, u] => simp [decode_msg] at h
        | c :: i :: u :: w :: rest =>
          by_cases hlen : rest.length < (u + 256 * w) + 2
          · simp [decode_msg, hlen] at h
          · have hc : (decode_msg (0xb5 :: 0x62 :: c :: i :: u :: w :: rest)).1 =
                8 + (u + 256 * w) := by
              simp [decode_msg, hlen]
            rw [hc] at h ⊢
            have htake : (0xb5 :: 0x62 :: c :: i :: u :: w :: rest).take (8 + (u + 256 * w)) =
                0xb5 :: 0x62 :: c :: i :: u :: w :: rest.take (2 + (u + 256 * w)) := by
              rw [show 8 + (u + 256 * w) = (2 + (u + 256 * w)) + 1 + 1 + 1 + 1 + 1 + 1 from by
                ring]
              simp [List.take_succ_cons]
            rw [htake] at h ⊢
            constructor
            · simp
            · simp only [List.length_cons, List.length_take, List.getD_cons_succ,
                List.getD_cons_zero]
              have : min (2 + (u + 256 * w)) rest.length = 2 + (u + 256 * w) := by omega
              rw [this]
              ring
      · simp [decode_msg, h1, h2] at h
    · simp [decode_msg, h1] at h

/-! ### Claim theorems -/

/-- Claim C1. For an update against an existing cache entry (age below the
validity window, so `load_cache` produced it) on a registered device: if
every tracked parameter of the validated request equals the value
recorded in the configuration, the update is a cache hit — the
configuration is untouched, the cache is not invalidated, the fetch
collaborator is never invoked, and the bytes handed to the device are
exactly the stored cache bytes (no position-aid re-prepended, no error);
if any tracked parameter differs, the entry is discarded and the fetch
collaborator is invoked exactly once. -/
theorem update_cache_hit_and_miss (cfg : Config) (bs : List Nat) (p : Params)
    (fetched : List Nat) (hreg : cfgHas cfg "chipcode" = true) (hbs : bs ≠ []) :
    ((∀ kv ∈ paramsList p, cfgGet cfg kv.1 = kv.2) →
      update cfg (some bs) p fetched = ⟨none, cfg, false, 0, some bs, some bs⟩) ∧
    ((∃ kv ∈ paramsList p, cfgGet cfg kv.1 ≠ kv.2) →
      (update cfg (some bs) p fetched).invalidated = true ∧
      (update cfg (some bs) p fetched).fetchCount = 1) := by
  constructor
  · intro hall
    have hu : updCfg cfg (paramsList p) = (cfg, false) := updCfg_all_match cfg _ hall
    have hne : bs.isEmpty = false := by
      cases bs with
      | nil => exact absurd rfl hbs
      | cons x xs => rfl
    simp [update, hreg, hu, pyFalsyCache, hne]
  · intro hdiff
    have hchg : (updCfg cfg (paramsList p)).2 = true := by
      cases hc : (updCfg cfg (paramsList p)).2 with
      | false =>
        obtain ⟨kv, hmem, hneq⟩ := hdiff
        exact absurd (updCfg_snd_false cfg _ hc kv hmem) hneq
      | true => rfl
    cases hl : p.lat with
    | none =>
      simp [update, hreg, hchg, hl, pyFalsyCache]
    | some la =>
      cases ho : p.lon with
      | none => simp [update, hreg, hchg, hl, ho, pyFalsyCache]
      | some lo =>
        cases ha : p.alt with
        | some av => simp [update, hreg, hchg, hl, ho, ha, pyFalsyCache]
        | none =>
          cases hp : p.pacc with
          | some pv => simp [update, hreg, hchg, hl, ho, ha, hp, pyFalsyCache]
          | none =>
            cases henc : ubx_mga_ini_pos_llh la lo 0 300 with
            | none => simp [update, hreg, hchg, hl, ho, ha, hp, pyFalsyCache, henc]
            | some pkt => simp [update, hreg, hchg, hl, ho, ha, hp, pyFalsyCache, henc]

/-- Witness for C1 at a concrete registered configuration whose recorded
parameters match the request exactly: the update is a hit. -/
theorem update_cache_hit_and_miss_witness :
    update [("chipcode", PVal.str "X"), ("lat", PVal.num 1), ("lon", PVal.num 2),
        ("filteronpos", PVal.num 1)] (some [9, 9]) ⟨none, none, some 1, some 2, none, none⟩
        [170] =
      ⟨none, [("chipcode", PVal.str "X"), ("lat", PVal.num 1), ("lon", PVal.num 2),
        ("filteronpos", PVal.num 1)], false, 0, some [9, 9], some [9, 9]⟩ :=
  (update_cache_hit_and_miss
    [("chipcode", PVal.str "X"), ("lat", PVal.num 1), ("lon", PVal.num 2),
      ("filteronpos", PVal.num 1)] [9, 9] ⟨none, none, some 1, some 2, none, none⟩ [170]
    (by decide) (by decide)).1 (by decide)

/-- Claim C5. A cache entry recorded with derived `filteronpos = 1` (its
creating request supplied both `lat` and `lon`, so a numeric `lat` is
recorded too): a subsequent request omitting `lat` and `lon` has a tracked
parameter (`lat`, now `None`) differing from the recorded value, so the
cache is invalidated and a fresh fetch occurs. -/
theorem omit_latlon_invalidates (cfg : Config) (cache : Option (List Nat)) (p : Params)
    (fetched : List Nat) (q : ℚ) (hreg : cfgHas cfg "chipcode" = true)
    (_hfil : cfgGet cfg "filteronpos" = PVal.num 1) (hrec : cfgGet cfg "lat" = PVal.num q)
    (hplat : p.lat = none) (hplon : p.lon = none) :
    (update cfg cache p fetched).invalidated = true ∧
    (update cfg cache p fetched).fetchCount = 1 := by
  have hmem : ("lat", ofNum p.lat) ∈ paramsList p := by
    simp [paramsList]
  have hchg : (updCfg cfg (paramsList p)).2 = true := by
    cases hc : (updCfg cfg (paramsList p)).2 with
    | false =>
      have := updCfg_snd_false cfg _ hc ("lat", ofNum p.lat) hmem
      rw [hplat] at this
      rw [hrec] at this
      exact absurd this (by simp [ofNum])
    | true => rfl
  simp [update, hreg, hchg, hplat, hplon, pyFalsyCache]

/-- Witness for C5: a registered configuration recording
`lat = 1, lon = 2, filteronpos = 1`, updated with a request omitting
`lat`/`lon`, invalidates and fetches. -/
theorem omit_latlon_invalidates_witness :
    (update [("chipcode", PVal.str "X"), ("lat", PVal.num 1), ("lon", PVal.num 2),
        ("filteronpos", PVal.num 1)] (some [9, 9]) ⟨none, none, none, none, none, none⟩
        [170]).invalidated = true ∧
    (update [("chipcode", PVal.str "X"), ("lat", PVal.num 1), ("lon", PVal.num 2),
        ("filteronpos", PVal.num 1)] (some [9, 9]) ⟨none, none, none, none, none, none⟩
        [170]).fetchCount = 1 :=
  omit_latlon_invalidates
    [("chipcode", PVal.str "X"), ("lat", PVal.num 1), ("lon", PVal.num 2),
      ("filteronpos", PVal.num 1)] (some [9, 9]) ⟨none, none, none, none, none, none⟩
    [170] 1 (by decide) (by decide) (by decide) rfl rfl

/-- Claim C10. Calling `register` on a device whose stored configuration
already contains a `chipcode` fails immediately with "Device already
registered.": no transport query is issued, no cloud request is posted,
and the configuration and cache are unchanged. -/
theorem register_already_registered (cfg : Config) (cache : Option (List Nat))
    (secUniqid monVer : List Nat) (cloudOk : Bool) (cloudConfig : Config)
    (hreg : cfgHas cfg "chipcode" = true) :
    register cfg cache secUniqid monVer cloudOk cloudConfig =
      ⟨some (.exception "Device already registered."), 0, 0, cfg, cache⟩ := by
  simp [register, hreg]

/-- Witness for C10 at a concrete registered configuration. -/
theorem register_already_registered_witness :
    register [("chipcode", PVal.str "ABC123")] none [1, 2] [3, 4] true [] =
      ⟨some (.exception "Device already registered."), 0, 0,
        [("chipcode", PVal.str "ABC123")], none⟩ :=
  register_already_registered [("chipcode", PVal.str "ABC123")] none [1, 2] [3, 4] true []
    (by decide)

/-- Claim C6. `encode_position_aid(52.0, 4.3, 10, 5)` produces the packet
`make_pkt 0x13 0x40 payload` where the 20-byte payload has bytes 0-1 equal
to `0x01 0x00`, bytes 2-3 zero, bytes 4-7 (little-endian signed 32-bit)
equal to 520000000, bytes 8-11 to 43000000, bytes 12-15 to 1000, and bytes
16-19 (little-endian unsigned) to 5000000.  (At these inputs Python float
arithmetic agrees with exact rational arithmetic: `4.3 * 10**7` rounds to
exactly `43000000.0`.) -/
theorem encode_position_aid_values :
    (mgaPayload 52 (43 / 10) 10 5).isSome = true ∧
    ((mgaPayload 52 (43 / 10) 10 5).getD []).length = 20 ∧
    ((mgaPayload 52 (43 / 10) 10 5).getD []).getD 0 0 = 0x01 ∧
    ((mgaPayload 52 (43 / 10) 10 5).getD []).getD 1 0 = 0x00 ∧
    ((mgaPayload 52 (43 / 10) 10 5).getD []).getD 2 0 = 0 ∧
    ((mgaPayload 52 (43 / 10) 10 5).getD []).getD 3 0 = 0 ∧
    leI32 ((mgaPayload 52 (43 / 10) 10 5).getD []) 4 = 520000000 ∧
    leI32 ((mgaPayload 52 (43 / 10) 10 5).getD []) 8 = 43000000 ∧
    leI32 ((mgaPayload 52 (43 / 10) 10 5).getD []) 12 = 1000 ∧
    leU32 ((mgaPayload 52 (43 / 10) 10 5).getD []) 16 = 5000000 ∧
    (ubx_mga_ini_pos_llh 52 (43 / 10) 10 5).isSome = true := by
  have hm : mgaPayload 52 (43 / 10) 10 5 =
      some [1, 0, 0, 0, 0, 146, 254, 30, 192, 32, 144, 2, 232, 3, 0, 0, 64, 75, 76, 0] := by
    simp only [mgaPayload]
    rw [pyInt_eval ((52 : ℚ) * 10 ^ 7) 520000000 (by norm_num),
      pyInt_eval ((43 / 10 : ℚ) * 10 ^ 7) 43000000 (by norm_num),
      pyInt_eval ((10 : ℚ) * 10 ^ 2) 1000 (by norm_num),
      pyInt_eval ((5 : ℚ) * 10 ^ 6) 5000000 (by norm_num)]
    rw [if_pos (by decide)]
    decide
  rw [hm]
  refine ⟨rfl, by decide, by decide, by decide, by decide, by decide, by decide,
    by decide, by decide, by decide, ?_⟩
  unfold ubx_mga_ini_pos_llh
  rw [hm]
  rfl

/-- Claim C7. `send_data` terminates on every finite input: the forwarding
loop exits (fuel `length + 1` always suffices, because every iteration
either stops — empty buffer or zero bytes consumed — or strictly shrinks
the buffer), including on buffers ending in trailing garbage that
contains no complete packet. -/
theorem send_data_terminates (data : List Nat) : (send_data data).isSome = true :=
  sendLoop_isSome (data.length + 1) data (Nat.lt_succ_self data.length)

/-- Witness for C7 at a concrete buffer of trailing garbage starting with
a sync byte but containing no complete packet. -/
theorem send_data_terminates_witness : (send_data [0xb5, 0x62, 0x13]).isSome = true :=
  send_data_terminates [0xb5, 0x62, 0x13]

/-- Claim C2, counterexample. Two refutations at concrete cache misses on
a registered device.  First, with `lat=1, lon=2` (no `alt`/`pacc`) and
fetched blob `[170]`, the new entry's bytes after the first 20 are NOT
the fetched blob: the prepended position-aid packet is 28 bytes (8 bytes
of UBX framing around the 20-byte payload).  Second, with `alt = 10` also
present, no cache entry is written at all: the encoder call passes the
keyword `alt` to a parameter named `alt_m`, so the update raises
`TypeError` after the fetch and stores nothing. -/
theorem update_first20_cex :
    ((update [("chipcode", PVal.str "X")] none ⟨none, none, some 1, some 2, none, none⟩
        [170]).fetchCount = 1 ∧
      ((update [("chipcode", PVal.str "X")] none ⟨none, none, some 1, some 2, none, none⟩
        [170]).newCache.getD []).drop 20 ≠ [170]) ∧
    ((update [("chipcode", PVal.str "X")] none ⟨none, none, some 1, some 2, some 10, none⟩
        [170]).err = some (PyErr.typeError "alt") ∧
      (update [("chipcode", PVal.str "X")] none ⟨none, none, some 1, some 2, some 10, none⟩
        [170]).newCache = none ∧
      (update [("chipcode", PVal.str "X")] none ⟨none, none, some 1, some 2, some 10, none⟩
        [170]).fetchCount = 1) := by
  have hchg : (updCfg [("chipcode", PVal.str "X")]
      (paramsList ⟨none, none, some 1, some 2, none, none⟩)).2 = true := by decide
  have hchg2 : (updCfg [("chipcode", PVal.str "X")]
      (paramsList ⟨none, none, some 1, some 2, some 10, none⟩)).2 = true := by decide
  refine ⟨⟨?_, ?_⟩, ?_, ?_, ?_⟩ <;>
    simp [update, cfgHas, hchg, hchg2, pyFalsyCache, mga_1_2_concrete]

/-- Claim C2, amended. For every cache-miss update on a registered device
whose validated parameters include `lat` and `lon` but neither `alt` nor
`pacc` (when `alt` or `pacc` is present, the encoder call's keyword names
`alt`/`pacc` do not match the method parameters `alt_m`/`pacc_km`, so the
update raises `TypeError` after the fetch and writes no entry), and whose
position-aid encoding succeeds, the new cache entry is the position-aid
packet — built from the same `lat`/`lon` with the encoder defaults
`alt_m=0`, `pacc_km=300` — followed by the fetched blob verbatim; the
packet occupies the first **28** bytes (not 20 — the 20-byte payload is
wrapped in 8 bytes of UBX framing), and the bytes after the first 28
equal the fetched blob. -/
theorem update_miss_prepends_posaid (cfg : Config) (cache : Option (List Nat)) (p : Params)
    (fetched : List Nat) (la lo : ℚ) (pkt : List Nat)
    (hreg : cfgHas cfg "chipcode" = true) (hlat : p.lat = some la) (hlon : p.lon = some lo)
    (halt : p.alt = none) (hpacc : p.pacc = none)
    (hmiss : pyFalsyCache (if (updCfg cfg (paramsList p)).2 then none else cache) = true)
    (henc : ubx_mga_ini_pos_llh la lo 0 300 = some pkt) :
    (update cfg cache p fetched).newCache = some (pkt ++ fetched) ∧
    (update cfg cache p fetched).fetchCount = 1 ∧
    (pkt ++ fetched).take 28 = pkt ∧ (pkt ++ fetched).drop 28 = fetched := by
  have hlen := mga_pkt_length la lo 0 300 pkt henc
  refine ⟨?_, ?_, List.take_left' hlen, List.drop_left' hlen⟩ <;>
    simp [update, hreg, hlat, hlon, halt, hpacc, henc, hmiss]

/-- Witness for the amended C2 at `lat=1, lon=2`, empty initial cache,
fetched blob `[170]`. -/
theorem update_miss_prepends_posaid_witness :
    (update [("chipcode", PVal.str "X")] none ⟨none, none, some 1, some 2, none, none⟩
        [170]).newCache =
      some ([181, 98, 19, 64, 20, 0, 1, 0, 0, 0, 128, 150, 152, 0, 0, 45, 49, 1,
        0, 0, 0, 0, 0, 163, 225, 17, 10, 12] ++ [170]) ∧
    (update [("chipcode", PVal.str "X")] none ⟨none, none, some 1, some 2, none, none⟩
        [170]).fetchCount = 1 ∧
    ([181, 98, 19, 64, 20, 0, 1, 0, 0, 0, 128, 150, 152, 0, 0, 45, 49, 1,
        0, 0, 0, 0, 0, 163, 225, 17, 10, 12] ++ [170]).take 28 =
      [181, 98, 19, 64, 20, 0, 1, 0, 0, 0, 128, 150, 152, 0, 0, 45, 49, 1,
        0, 0, 0, 0, 0, 163, 225, 17, 10, 12] ∧
    ([181, 98, 19, 64, 20, 0, 1, 0, 0, 0, 128, 150, 152, 0, 0, 45, 49, 1,
        0, 0, 0, 0, 0, 163, 225, 17, 10, 12] ++ [170]).drop 28 = [170] :=
  update_miss_prepends_posaid [("chipcode", PVal.str "X")] none
    ⟨none, none, some 1, some 2, none, none⟩ [170] 1 2
    [181, 98, 19, 64, 20, 0, 1, 0, 0, 0, 128, 150, 152, 0, 0, 45, 49, 1,
      0, 0, 0, 0, 0, 163, 225, 17, 10, 12]
    (by decide) rfl rfl rfl rfl (by decide) mga_1_2_concrete

/-- Claim C3, counterexample. `wait_for` returns a packet whose checksum
bytes do NOT match the recomputed checksum: the decode wrapper returns the
raw consumed bytes without the decoder's validity verdict, and `wait_for`
matches only on the first four bytes, so a checksum-corrupted frame with
the requested class/id is returned rather than discarded. -/
theorem waitFor_bad_checksum_cex :
    waitFor 0x27 0x03 2 [[0xb5, 0x62, 0x27, 0x03, 1, 0, 0xaa, 0, 0]] [] =
      [0xb5, 0x62, 0x27, 0x03, 1, 0, 0xaa, 0, 0] ∧
    checksumOk [0xb5, 0x62, 0x27, 0x03, 1, 0, 0xaa, 0, 0] = false := by
  decide

/-- Claim C3, amended. Every non-empty result of `wait_for(class, id,
timeout)` is one complete UBX frame whose first four bytes are the sync
marker followed by the requested class and id (its declared length field
is consistent with its total length); checksum validity, however, is NOT
guaranteed — a decoded frame whose checksum bytes fail recomputation is
returned rather than discarded, because the decode wrapper drops the
validity verdict and `wait_for` compares only `data[:consumed][0:4]`. -/
theorem waitFor_returns_matching_frame (m_cls m_id fuel : Nat) (chunks : List (List Nat))
    (data : List Nat) (hne : waitFor m_cls m_id fuel chunks data ≠ []) :
    (waitFor m_cls m_id fuel chunks data).take 4 = [0xb5, 0x62, m_cls, m_id] ∧
    isFrame (waitFor m_cls m_id fuel chunks data) := by
  induction fuel generalizing chunks data with
  | zero => exact absurd rfl hne
  | succ n ih =>
    cases chunks with
    | nil =>
      by_cases hm : ((decodeStep data).2.1).take 4 = [0xb5, 0x62, m_cls, m_id]
      · unfold waitFor
        simp only [if_pos hm]
        exact ⟨hm, decodeStep_matching_frame data m_cls m_id hm⟩
      · unfold waitFor at hne ⊢
        simp only [if_neg hm] at hne ⊢
        exact ih [] ((decodeStep data).2.2) hne
    | cons c cs =>
      by_cases hm : ((decodeStep (data ++ c)).2.1).take 4 = [0xb5, 0x62, m_cls, m_id]
      · unfold waitFor
        simp only [if_pos hm]
        exact ⟨hm, decodeStep_matching_frame (data ++ c) m_cls m_id hm⟩
      · unfold waitFor at hne ⊢
        simp only [if_neg hm] at hne ⊢
        exact ih cs ((decodeStep (data ++ c)).2.2) hne

/-- Witness for the amended C3: the synchronizer fed one well-formed
SEC-UNIQID frame returns it, and the result has the requested class/id in
bytes 2-3 and a consistent frame length. -/
theorem waitFor_returns_matching_frame_witness :
    (waitFor 0x27 0x03 2 [[0xb5, 0x62, 0x27, 0x03, 1, 0, 0xaa, 0xd5, 0x4f]] []).take 4 =
      [0xb5, 0x62, 0x27, 0x03] ∧
    isFrame (waitFor 0x27 0x03 2 [[0xb5, 0x62, 0x27, 0x03, 1, 0, 0xaa, 0xd5, 0x4f]] []) :=
  waitFor_returns_matching_frame 0x27 0x03 2
    [[0xb5, 0x62, 0x27, 0x03, 1, 0, 0xaa, 0xd5, 0x4f]] [] (by decide)

/-- Claim C4, counterexample. The position-aid encoder has an error path
inside the validated `pacc` range: at `pacc = 6000000` (validated, since
`0 ≤ 6000000 ≤ 6000000`) the fixed-point accuracy `int(pacc * 10^6) =
6·10^12` exceeds `2^32 - 1`, so `struct.pack_into("<3iI", ...)` raises
`struct.error` and no packet is built. -/
theorem mga_pacc_range_cex :
    ubx_mga_ini_pos_llh 1 2 0 6000000 = none ∧
    ((0 : ℚ) ≤ 6000000 ∧ (6000000 : ℚ) ≤ 6000000) := by
  constructor
  · simp only [ubx_mga_ini_pos_llh, mgaPayload]
    rw [pyInt_eval ((1 : ℚ) * 10 ^ 7) 10000000 (by norm_num),
      pyInt_eval ((2 : ℚ) * 10 ^ 7) 20000000 (by norm_num),
      pyInt_eval ((0 : ℚ) * 10 ^ 2) 0 (by norm_num),
      pyInt_eval ((6000000 : ℚ) * 10 ^ 6) 6000000000000 (by norm_num)]
    rw [if_neg (by decide)]
    rfl
  · exact ⟨by norm_num, by norm_num⟩

/-- Claim C4, amended. For every validated parameter set with `lat` and
`lon` present, building the position-aid packet succeeds provided
`pacc · 10^6` fits the unsigned 32-bit pack field, i.e. for
`pacc ∈ [0, 4294967295/10^6] ≈ [0, 4294.97]` km; beyond that (still
inside the validated range `[0, 6000000]`) the `struct.pack_into` range
guard — an error path beyond the codec's payload-size guard — raises. -/
theorem mga_encoder_succeeds (lat lon alt pacc : ℚ)
    (h1 : -90 ≤ lat) (h2 : lat ≤ 90) (h3 : -180 ≤ lon) (h4 : lon ≤ 180)
    (h5 : -1000 ≤ alt) (h6 : alt ≤ 50000) (h7 : 0 ≤ pacc)
    (h8 : pacc ≤ 4294967295 / 1000000) :
    (ubx_mga_ini_pos_llh lat lon alt pacc).isSome = true :=
  mga_isSome lat lon alt pacc (abs_le.mpr ⟨h1, h2⟩) (abs_le.mpr ⟨h3, h4⟩)
    (abs_le.mpr ⟨by linarith, h6⟩) h7 (by
      have h9 : pacc * 1000000 ≤ 4294967295 :=
        (le_div_iff₀ (by norm_num)).mp h8
      calc pacc * 10 ^ 6 = pacc * 1000000 := by norm_num
        _ ≤ 4294967295 := h9)

/-- Witness for the amended C4 at the spec's own example input
`(52, 4.3, 10, 5)`. -/
theorem mga_encoder_succeeds_witness :
    (ubx_mga_ini_pos_llh 52 (43 / 10) 10 5).isSome = true :=
  mga_encoder_succeeds 52 (43 / 10) 10 5 (by norm_num) (by norm_num) (by norm_num)
    (by norm_num) (by norm_num) (by norm_num) (by norm_num) (by norm_num)

/-- Claim C8, counterexample. A `cache_duration` of 30 hours is NOT clamped
to 24: `AssistNow.__init__` passes it through
`Helpers.validate_number(cache_duration, 0, 24)`, which raises (the
intended `ValueError`, surfacing as `NameError` because the message
f-string references the unbound name `v`) instead of clamping. -/
theorem cache_duration_not_clamped_cex :
    initCacheDuration (PVal.num 30) = Except.error (PyErr.nameError "v") ∧
    initCacheDuration (PVal.num 30) ≠ Except.ok (some 24) := by
  have h : initCacheDuration (PVal.num 30) = Except.error (PyErr.nameError "v") := by
    simp only [initCacheDuration, validate_number, pyFloat]
    rw [if_neg (by norm_num)]
  exact ⟨h, by rw [h]; exact fun hh => Except.noConfusion hh⟩

/-- Claim C8, amended. Constructing the cache manager with a
`cache_duration` outside `[0, 24]` raises an error (the range-check branch
of `validate_number`; due to the unbound message variable `v` it surfaces
as `NameError`) rather than clamping; an in-range value passes through
unchanged; omitting `cache_duration` uses the constructor default of 3
hours. -/
theorem cache_duration_amended (q : ℚ) :
    (0 ≤ q → q ≤ 24 → initCacheDuration (PVal.num q) = Except.ok (some q)) ∧
    ((q < 0 ∨ 24 < q) → initCacheDuration (PVal.num q) = Except.error (PyErr.nameError "v")) ∧
    initCacheDuration defaultCacheDuration = Except.ok (some 3) := by
  refine ⟨?_, ?_, ?_⟩
  · intro h1 h2
    simp only [initCacheDuration, validate_number, pyFloat]
    rw [if_pos ⟨h1, h2⟩]
  · intro h
    simp only [initCacheDuration, validate_number, pyFloat]
    rw [if_neg]
    rcases h with h | h
    · exact fun hc => absurd hc.1 (not_le.mpr h)
    · exact fun hc => absurd hc.2 (not_le.mpr h)
  · simp only [initCacheDuration, defaultCacheDuration, validate_number, pyFloat]
    rw [if_pos (by norm_num)]

/-- Witness for the amended C8 at `cache_duration = 25`. -/
theorem cache_duration_amended_witness :
    initCacheDuration (PVal.num 25) = Except.error (PyErr.nameError "v") :=
  (cache_duration_amended 25).2.1 (Or.inr (by norm_num))

/-- Claim C9, code bug. Numeric validation cannot report the offending
value: both failure branches of `validate_number` interpolate the unbound
name `v` into the message, so an unparseable value (`lat=abc`) and an
out-of-range value (`lat=100`) raise `NameError` (or name an unrelated
global) instead of the intended `ValueError` naming the value and range.
The enumerated-parameter path (`validate_list`) does behave as claimed,
naming the offending value and the valid choices. -/
theorem validate_number_nameerror :
    validate_number (PVal.str "abc") (-90) 90 = Except.error (PyErr.nameError "v") ∧
    validate_number (PVal.num 100) (-90) 90 = Except.error (PyErr.nameError "v") ∧
    validate_list (some "gps,foo") ["gps", "glo", "gal", "bds", "qzss"] =
      Except.error (PyErr.valueErrorUnknownValue "foo"
        ["gps", "glo", "gal", "bds", "qzss"]) := by
  refine ⟨by decide, ?_, by decide⟩
  simp only [validate_number, pyFloat]
  rw [if_neg (by norm_num)]

end AssistNow
